import Mathlib

/-!
Shallow embedding of the ddmbot song/playlist/credit engine
(`dbmanager.py`) and verification of its specification claims.

Tables are modelled as lists of records; SQL `UPDATE ... WHERE c` becomes a
`List.map` that rewrites exactly the rows satisfying `c`, `DELETE` becomes a
`List.filter`, and row creation appends a record carrying a fresh id taken
from a counter.  Timestamps and durations are integers (seconds).  The
external media resolver (`youtube_dl`) is an oracle parameter: its network
answers are inputs of the functions that consult it.
-/

/-- `DBSong` row (dbmanager.py, class DBSong). -/
structure DBSong where
  id : Nat
  uuri : String
  title : String
  last_played : Int
  hype_count : Int := 0
  skip_votes : Int := 0
  play_count : Int := 0
  duration : Int
  credit_count : Int
  is_blacklisted : Bool := false
  has_failed : Bool := false
  /-- `duplicate` foreign key, `null`able (id of the song this one duplicates). -/
  duplicate : Option Nat := none
deriving Repr, DecidableEq

/-- `DBSongLink` row (dbmanager.py, class DBSongLink): one playlist entry. -/
structure DBSongLink where
  id : Nat
  user : Nat
  song : Nat
  next : Option Nat
deriving Repr, DecidableEq

/-- `DBUser` row (dbmanager.py, class DBUser). -/
structure DBUser where
  discord_id : Nat
  hype_count_got : Int := 0
  hype_count_given : Int := 0
  skip_votes_got : Int := 0
  skip_votes_given : Int := 0
  play_count : Int := 0
  playlist_head : Option Nat := none
  rotate_playlist : Bool
deriving Repr, DecidableEq

/-- The relevant configuration values read in `DBManager.__init__`.
`ap_skip_factor` is the `ap_hype_skip_ratio` setting of the source and
`op_credit_renew` is kept in seconds. -/
structure DBConfig where
  rotate_by_default : Bool
  ap_hype_threshold : Int
  ap_skip_factor : Int
  length_limit : Int
  chain_limit : Nat
  op_interval : Int
  op_credit_cap : Int
  op_credit_renew : Int
deriving Repr, DecidableEq

/-- The persistent store: the four tables plus the fresh-id counters of the
two autoincrement primary keys. `credit_last` is the singleton
`DBCreditTimestamp.last` value. -/
structure DB where
  songs : List DBSong
  links : List DBSongLink
  users : List DBUser
  credit_last : Int
  next_song_id : Nat
  next_link_id : Nat
deriving Repr, DecidableEq

/-- The distinct raise sites of `dbmanager.py`, tagged with the taxonomy
names the specification gives them. -/
inductive DBError where
  /-- `LookupError` in `get_next_song` when the playlist head is null. -/
  | emptyPlaylist
  /-- `RuntimeError` "was blacklisted by an operator". -/
  | blacklisted (songId : Nat)
  /-- `RuntimeError` "has been played recently". -/
  | overplayed (songId : Nat)
  /-- `RuntimeError` "is overplayed" (zero credits). -/
  | exhausted (songId : Nat)
  /-- `RuntimeError` "length exceeds the limit". -/
  | tooLong (songId : Nat)
  /-- `UnavailableSongError` raised after a download failure. -/
  | unavailable (songId : Nat) (title : String)
  /-- `ValueError` "cannot be found in the database". -/
  | notFound (songId : Nat)
  /-- `RuntimeError` "Your playlist is full". -/
  | playlistFull
  /-- `ValueError` "Malformed URL or unsupported service" in `_get_song`. -/
  | malformed (msg : String)
  /-- `youtube_dl.DownloadError` surfaced from `_get_song`. -/
  | download (url : String)
  /-- `RuntimeError` "Failed to extract song title". -/
  | extractTitleFailed
  /-- `RuntimeError` "Failed to extract song duration". -/
  | extractDurationFailed
  /-- A dangling foreign key; unreachable from well-formed states. -/
  | corrupt
deriving Repr, DecidableEq

/-- The transient `SongContext` object: its two vote sets are Python `set`s
of user ids. `user` is `None` for autoplay contexts. -/
structure SongContext where
  user : Option Nat
  song : Nat
  title : String
  duration : Int
  url : String
  hypes : Finset Nat
  skips : Finset Nat
deriving DecidableEq

/-- `SongContext.hype`: adds the vote unless the voter is the requesting
user, in which case it silently does nothing. -/
def SongContext.hype (ctx : SongContext) (user_id : Nat) : SongContext :=
  if some user_id ≠ ctx.user then
    { ctx with hypes := insert user_id ctx.hypes, skips := ctx.skips.erase user_id }
  else ctx

/-- `SongContext.skip`: raises `ValueError` for the requesting user (before
touching either set), otherwise moves the vote to the skip set. -/
def SongContext.skip (ctx : SongContext) (user_id : Nat) : Except String SongContext :=
  if some user_id = ctx.user then
    .error "Self skip should be handled by the player"
  else
    .ok { ctx with hypes := ctx.hypes.erase user_id, skips := insert user_id ctx.skips }

/-- A vote command arriving during playback. -/
inductive VoteOp where
  | hype (uid : Nat)
  | skip (uid : Nat)
deriving Repr, DecidableEq

/-- Runtime effect of one vote command on the live `SongContext`: a raised
`ValueError` leaves the context as it was. -/
def applyVote (ctx : SongContext) (op : VoteOp) : SongContext :=
  match op with
  | .hype u => ctx.hype u
  | .skip u =>
    match ctx.skip u with
    | .ok ctx2 => ctx2
    | .error _ => ctx

/-- One iteration of the `_credit_renew` task loop, at wall-clock time
`now` and with checkpoint `last`: `credits_to_add` is the floor quotient of
the elapsed time by the renewal period (Python `timedelta // timedelta`),
and when positive the checkpoint advances by exactly that many periods and
every song's credit is bulk-updated to `MIN(credit_count + n, cap)`. -/
def credit_renew_cycle (cfg : DBConfig) (now : Int) (last : Int)
    (songs : List DBSong) : Int × List DBSong :=
  let credits_to_add : Int := (now - last).fdiv cfg.op_credit_renew
  if 0 < credits_to_add then
    (last + credits_to_add * cfg.op_credit_renew,
     songs.map fun s =>
       { s with credit_count := min (s.credit_count + credits_to_add) cfg.op_credit_cap })
  else
    (last, songs)

/-- `needle` occurs as a contiguous run inside `hay`. -/
def charsContain (needle : List Char) : List Char → Bool
  | [] => needle.isEmpty
  | c :: t => needle.isPrefixOf (c :: t) || charsContain needle t

/-- The characters of a string, lower-cased. -/
def lowerChars (s : String) : List Char :=
  s.toList.map Char.toLower

/-- SQL `field LIKE '%kw%'` as peewee's `**` operator produces it:
case-insensitive containment. -/
def likeMatch (field kw : String) : Bool :=
  charsContain (lowerChars kw) (lowerChars field)

/-- Python `str.isdigit` on the uris `_process_uris` probes: non-empty and
all decimal digits. -/
def strIsDigits (s : String) : Bool :=
  !s.toList.isEmpty && s.toList.all Char.isDigit

/-- Python `int(...)` on a digit string. -/
def strToNat (s : String) : Nat :=
  s.toList.foldl (fun n c => n * 10 + (c.toNat - 48)) 0

/-- `DBManager.search_songs`: starting from all songs, one `where` clause is
added per keyword (title LIKE or uuri LIKE), the query is limited to 20
rows, and `(id, title)` pairs are collected. -/
def search_songs (songs : List DBSong) (keywords : List String) : List (Nat × String) :=
  let query := keywords.foldl
    (fun q kw => q.filter fun s => likeMatch s.title kw || likeMatch s.uuri kw) songs
  (query.take 20).map fun s => (s.id, s.title)

/-- The conjunction of all keyword clauses on one row, wording of the spec
("title OR locator contains every keyword"). -/
def matchesAllKeywords (keywords : List String) (s : DBSong) : Bool :=
  keywords.all fun kw => likeMatch s.title kw || likeMatch s.uuri kw

/-- Number of rows matching a search with no limit applied. -/
def searchTotalMatches (songs : List DBSong) (keywords : List String) : Nat :=
  (songs.filter (matchesAllKeywords keywords)).length

/-- `DBManager.merge_songs`.  `source_id == target_id` is the split branch:
a single (non-transactional) `UPDATE duplicate=NULL WHERE id=source`, whose
matched-row count decides `NotFound`.  Otherwise, inside a transaction:
fetch the target (`NotFound` when absent); if the target duplicates the
source, clear that reverse relation first; else if the target is itself a
duplicate, redirect to its root; finally `UPDATE duplicate=target WHERE
id=source OR duplicate=source`, raising `NotFound` (and rolling the
transaction back) when zero rows match. -/
def merge_songs (db : DB) (source_id target_id : Nat) : DB × Except DBError Unit :=
  if source_id = target_id then
    let matched := (db.songs.filter fun s => s.id = source_id).length
    let db1 := { db with songs := db.songs.map fun s =>
      if s.id = source_id then { s with duplicate := none } else s }
    if matched = 1 then (db1, .ok ()) else (db1, .error (.notFound source_id))
  else
    match db.songs.find? (fun s => s.id = target_id) with
    | none => (db, .error (.notFound target_id))
    | some target_song =>
      let step : DB × Nat :=
        if target_song.duplicate = some source_id then
          ({ db with songs := db.songs.map fun s =>
              if s.id = target_id then { s with duplicate := none } else s }, target_id)
        else
          match target_song.duplicate with
          | some root => (db, root)
          | none => (db, target_id)
      let db1 := step.1
      let effective_target := step.2
      let matched := (db1.songs.filter fun s =>
        s.id = source_id || s.duplicate = some source_id).length
      if matched = 0 then
        (db, .error (.notFound source_id))
      else
        ({ db1 with songs := db1.songs.map fun s =>
            if s.id = source_id || s.duplicate = some source_id then
              { s with duplicate := some effective_target }
            else s }, .ok ())

/-- Depth-1 invariant of the duplicate relation: a song pointed to by some
song's `duplicate` never has `duplicate` set itself. -/
def dupDepthLE1 (songs : List DBSong) : Prop :=
  ∀ s ∈ songs, ∀ t ∈ songs, s.duplicate = some t.id → t.duplicate = none

instance (songs : List DBSong) : Decidable (dupDepthLE1 songs) := by
  unfold dupDepthLE1; infer_instance

/-- Replay a sequence of `merge_songs` calls, keeping the state a failed
call leaves behind. -/
def applyMergeOps (db : DB) (ops : List (Nat × Nat)) : DB :=
  ops.foldl (fun d op => (merge_songs d op.1 op.2).1) db

/-- `DBManager._get_user`: `get_or_create` keyed on the discord id, with the
configured default rotate setting. -/
def get_user (cfg : DBConfig) (db : DB) (uid : Nat) : DBUser × DB :=
  match db.users.find? (fun u => u.discord_id = uid) with
  | some u => (u, db)
  | none =>
    let u : DBUser := { discord_id := uid, rotate_playlist := cfg.rotate_by_default }
    (u, { db with users := db.users ++ [u] })

/-- The playlist-pointer update of `get_next_song` (dbmanager.py lines
220-231), applied once the head `link` of `user` has been fetched:
* no rotation: move the head to `link.next` and delete the link;
* rotation with a successor: move the head to `link.next`, then
  `UPDATE songlink SET next=link.id WHERE next IS NULL` — note that this
  `where` clause carries **no user condition**, so it rewrites the tail
  link of every user — and finally null out the moved link's `next`;
* rotation with a single entry: no structural change. -/
def advance_playlist (db : DB) (user : DBUser) (link : DBSongLink) : DB :=
  if user.rotate_playlist = false then
    { db with
      users := db.users.map fun u =>
        if u.discord_id = user.discord_id then { u with playlist_head := link.next } else u,
      links := db.links.filter fun l => l.id ≠ link.id }
  else if link.next.isSome then
    let users1 := db.users.map fun u =>
      if u.discord_id = user.discord_id then { u with playlist_head := link.next } else u
    let links1 := db.links.map fun l =>
      if l.next = none then { l with next := some link.id } else l
    let links2 := links1.map fun l =>
      if l.id = link.id then { l with next := none } else l
    { db with users := users1, links := links2 }
  else
    db

/-- The four policy checks of `get_next_song` (dbmanager.py lines 237-250),
in source order, on the (possibly duplicate-substituted) song. -/
def check_constraints (cfg : DBConfig) (now : Int) (song : DBSong) : Option DBError :=
  if song.is_blacklisted then some (.blacklisted song.id)
  else if now - song.last_played < cfg.op_interval then some (.overplayed song.id)
  else if song.credit_count = 0 then some (.exhausted song.id)
  else if cfg.length_limit < song.duration then some (.tooLong song.id)
  else none

/-- `DBManager.get_next_song`.  `resolve` is the `youtube_dl.extract_info`
oracle, taking the song's uuri (the source first formats it into a URL with
`_make_url`) and returning the playable URL or `none` for a
`DownloadError`.  The transaction covers only the user lookup and the
playlist-pointer update: an empty playlist rolls it back, while the policy
checks and the resolution run after it has committed. -/
def get_next_song (cfg : DBConfig) (resolve : String → Option String) (now : Int)
    (db : DB) (user_id : Nat) : DB × Except DBError SongContext :=
  let userdb := get_user cfg db user_id
  let user := userdb.1
  let db1 := userdb.2
  match user.playlist_head with
  | none => (db, .error .emptyPlaylist)
  | some head_id =>
    match db1.links.find? (fun l => l.id = head_id) with
    | none => (db, .error .corrupt)
    | some link =>
      match db1.songs.find? (fun s => s.id = link.song) with
      | none => (db, .error .corrupt)
      | some song0 =>
        let db2 := advance_playlist db1 user link
        let subst : Option DBSong :=
          match song0.duplicate with
          | some dup_id => db2.songs.find? (fun s => s.id = dup_id)
          | none => some song0
        match subst with
        | none => (db, .error .corrupt)
        | some song =>
          match check_constraints cfg now song with
          | some e => (db2, .error e)
          | none =>
            match resolve song.uuri with
            | none =>
              let db3 :=
                if song.has_failed = false then
                  { db2 with songs := db2.songs.map fun s =>
                      if s.id = song.id then { s with has_failed := true } else s }
                else db2
              (db3, .error (.unavailable song.id song.title))
            | some url =>
              let db3 :=
                if song.has_failed then
                  { db2 with songs := db2.songs.map fun s =>
                      if s.id = song.id then { s with has_failed := false } else s }
                else db2
              (db3, .ok ⟨some user_id, song.id, song.title, song.duration, url, ∅, ∅⟩)

/-- The autoplay eligibility filter of `get_autoplaylist_song`, clause for
clause. -/
def ap_eligible (cfg : DBConfig) (now : Int) (s : DBSong) : Bool :=
  decide (s.last_played < now - cfg.op_interval) &&
  decide (cfg.ap_hype_threshold ≤ s.hype_count) &&
  decide (s.skip_votes * cfg.ap_skip_factor ≤ s.hype_count) &&
  decide (s.duration ≤ cfg.length_limit) &&
  decide (0 < s.credit_count) &&
  !s.is_blacklisted &&
  !s.has_failed &&
  decide (s.duplicate = none)

/-- `DBManager.get_autoplaylist_song`: filter the catalog by the eight
autoplay clauses, order randomly (`pick` chooses the surviving row), return
`None` when no row matches, and otherwise resolve the song, marking it
failed and raising `UnavailableSongError` on a download failure. -/
def get_autoplaylist_song (cfg : DBConfig) (resolve : String → Option String)
    (pick : Nat) (now : Int) (db : DB) : DB × Except DBError (Option SongContext) :=
  let candidates := db.songs.filter (ap_eligible cfg now)
  match candidates[pick % candidates.length]? with
  | none => (db, .ok none)
  | some song =>
    match resolve song.uuri with
    | none =>
      ({ db with songs := db.songs.map fun s =>
          if s.id = song.id then { s with has_failed := true } else s },
       .error (.unavailable song.id song.title))
    | some url =>
      (db, .ok (some ⟨none, song.id, song.title, song.duration, url, ∅, ∅⟩))

/-- The link ids on the chain starting at `start`, following `next`
pointers, with an explicit fuel bound. -/
def chainIds (links : List DBSongLink) : Nat → Option Nat → List Nat
  | 0, _ => []
  | _ + 1, none => []
  | fuel + 1, some i =>
    match links.find? (fun l => l.id = i) with
    | none => []
    | some l => i :: chainIds links fuel l.next

/-- Song ids of a user's playlist read off the chain from the head. -/
def playlist_songs (db : DB) (uid : Nat) (fuel : Nat) : List Nat :=
  let head := (db.users.find? (fun u => u.discord_id = uid)).bind fun u => u.playlist_head
  (chainIds db.links fuel head).filterMap fun lid =>
    (db.links.find? (fun l => l.id = lid)).map fun l => l.song

/-- Metadata `youtube_dl.extract_info(..., process=False)` yields for a
single track; either key may be missing from the answer. -/
structure YtdlTrack where
  title : Option String
  duration : Option Int
deriving Repr, DecidableEq

/-- Oracle bundling the external answers consumed by the insertion path:
the `_make_uuri`/`_is_list` regex matches and the two `youtube_dl` calls.
`list_entries` returns `none` for a `DownloadError`, `some none` for an
answer carrying no `entries` key, and otherwise the entry URLs (already
rewritten for the youtube `ie_key` quirk).  `track_info` takes the uuri
that `_make_url` would format into a URL; `none` is a `DownloadError`. -/
structure Resolver where
  make_uuri : String → Option String
  is_list : String → Bool
  list_entries : String → Option (Option (List String))
  track_info : String → Option YtdlTrack
deriving Inhabited

/-- `DBManager._get_song`: turn a URL into its uuri (`ValueError` when no
service regex matches), fetch the song row by uuri, and on first sight
create it with the extracted title and duration, epoch `last_played` and a
full credit balance.  The two extraction failures are `RuntimeError`s,
which the insertion path does not catch. -/
def get_song (r : Resolver) (cfg : DBConfig) (db : DB) (url : String) :
    DB × Except DBError DBSong :=
  match r.make_uuri url with
  | none => (db, .error (.malformed ("Malformed URL or unsupported service: " ++ url)))
  | some song_uuri =>
    match db.songs.find? (fun s => s.uuri = song_uuri) with
    | some s => (db, .ok s)
    | none =>
      match r.track_info song_uuri with
      | none => (db, .error (.download url))
      | some info =>
        match info.title with
        | none => (db, .error .extractTitleFailed)
        | some title =>
          match info.duration with
          | none => (db, .error .extractDurationFailed)
          | some dur =>
            let s : DBSong :=
              { id := db.next_song_id, uuri := song_uuri, title := title,
                last_played := 0, duration := dur, credit_count := cfg.op_credit_cap }
            ({ db with songs := db.songs ++ [s], next_song_id := db.next_song_id + 1 },
             .ok s)

/-- The inner loop of `_process_uris` over the entries of a playlist URL.
The boolean of a successful result reports whether the loop hit the
capacity limit, which makes the whole call return with `truncated=True`.
`ValueError` and `DownloadError` from `_get_song` are collected as per-item
errors; its `RuntimeError`s propagate. -/
def process_list_entries (r : Resolver) (cfg : DBConfig) (db : DB) (limit : Nat) :
    List String → List DBSong → List String →
    DB × Except DBError (List DBSong × List String × Bool)
  | [], song_list, error_list => (db, .ok (song_list, error_list, false))
  | url :: rest, song_list, error_list =>
    if limit ≤ song_list.length then (db, .ok (song_list, error_list, true))
    else
      match get_song r cfg db url with
      | (db1, .ok s) =>
        process_list_entries r cfg db1 limit rest (song_list ++ [s]) error_list
      | (db1, .error (.malformed msg)) =>
        process_list_entries r cfg db1 limit rest song_list (error_list ++ [msg])
      | (db1, .error (.download u)) =>
        process_list_entries r cfg db1 limit rest song_list
          (error_list ++ ["Inserting " ++ u ++ " from playlist failed"])
      | (db1, .error e) => (db1, .error e)

/-- The main loop of `DBManager._process_uris`: each uri is either a plain
integer (a song id to look up), a playlist URL (expanded through the
resolver), or a single track URL; the song list is truncated at `limit`,
setting the truncation flag, and per-item failures land in the error
list. -/
def process_uris_go (r : Resolver) (cfg : DBConfig) (db : DB) (limit : Nat) :
    List String → List DBSong → List String →
    DB × Except DBError (List DBSong × List String × Bool)
  | [], song_list, error_list => (db, .ok (song_list, error_list, false))
  | uri :: rest, song_list, error_list =>
    if limit ≤ song_list.length then (db, .ok (song_list, error_list, true))
    else if strIsDigits uri then
      match db.songs.find? (fun s => s.id = strToNat uri) with
      | some s => process_uris_go r cfg db limit rest (song_list ++ [s]) error_list
      | none => process_uris_go r cfg db limit rest song_list
          (error_list ++ ["Song [" ++ uri ++ "] cannot be found in the database"])
    else if r.is_list uri then
      match r.list_entries uri with
      | none => process_uris_go r cfg db limit rest song_list
          (error_list ++ ["Processing list " ++ uri ++ " failed"])
      | some none => process_uris_go r cfg db limit rest song_list
          (error_list ++ ["Malformed URL or unsupported service: " ++ uri])
      | some (some entries) =>
        match process_list_entries r cfg db limit entries song_list error_list with
        | (db1, .error e) => (db1, .error e)
        | (db1, .ok (songs1, errors1, early)) =>
          if early then (db1, .ok (songs1, errors1, true))
          else process_uris_go r cfg db1 limit rest songs1 errors1
    else
      match get_song r cfg db uri with
      | (db1, .ok s) => process_uris_go r cfg db1 limit rest (song_list ++ [s]) error_list
      | (db1, .error (.malformed msg)) =>
        process_uris_go r cfg db1 limit rest song_list (error_list ++ [msg])
      | (db1, .error (.download u)) =>
        process_uris_go r cfg db1 limit rest song_list
          (error_list ++ ["Inserting " ++ u ++ " failed"])
      | (db1, .error e) => (db1, .error e)

/-- `DBManager._process_uris` with its empty accumulators. -/
def process_uris (r : Resolver) (cfg : DBConfig) (db : DB) (uris : List String)
    (limit : Nat) : DB × Except DBError (List DBSong × List String × Bool) :=
  process_uris_go r cfg db limit uris [] []

/-- Link creation loop shared by append and prepend: the first `to_insert`
resolved songs, walked in reverse (`song_list[to_insert - 1::-1]`), each new
link pointing at the previously created one (seeded with `seed`).  Returns
the updated store and the id of the last link created. -/
def create_links (uid : Nat) (seed : Option Nat) (db : DB) (songs_rev : List DBSong) :
    DB × Option Nat :=
  songs_rev.foldl
    (fun st song =>
      let link : DBSongLink :=
        { id := st.1.next_link_id, user := uid, song := song.id, next := st.2 }
      ({ st.1 with links := st.1.links ++ [link], next_link_id := st.1.next_link_id + 1 },
       some link.id))
    (db, seed)

/-- `DBManager.append_to_playlist`: advisory capacity check, resolution of
the uris outside the transaction, then — inside it — recheck of the
remaining capacity, creation of the truncated chain and splice at the tail
(at the head when the playlist is empty).  Returns
`(inserted, truncated, error_list)`. -/
def append_to_playlist (r : Resolver) (cfg : DBConfig) (db : DB) (user_id : Nat)
    (uris : List String) : DB × Except DBError (Nat × Bool × List String) :=
  let count := (db.links.filter fun l => l.user = user_id).length
  if cfg.chain_limit ≤ count then (db, .error .playlistFull)
  else
    match process_uris r cfg db uris (cfg.chain_limit - count) with
    | (db1, .error e) => (db1, .error e)
    | (db1, .ok (song_list, error_list, truncated0)) =>
      let userdb := get_user cfg db1 user_id
      let user := userdb.1
      let db2 := userdb.2
      let to_insert := cfg.chain_limit -
        (db2.links.filter fun l => l.user = user_id).length
      if to_insert = 0 then (db1, .error .playlistFull)
      else
        let connection_point : Option DBSongLink :=
          if user.playlist_head.isSome then
            db2.links.find? fun l => l.user = user_id && l.next = none
          else none
        let created := create_links user_id none db2 (song_list.take to_insert).reverse
        let db3 := created.1
        let previous_link := created.2
        let db4 :=
          match connection_point with
          | some cp =>
            { db3 with links := db3.links.map fun l =>
                if l.id = cp.id then { l with next := previous_link } else l }
          | none =>
            { db3 with users := db3.users.map fun u =>
                if u.discord_id = user_id then { u with playlist_head := previous_link } else u }
        (db4, .ok (min song_list.length to_insert,
                   truncated0 || decide (to_insert < song_list.length),
                   error_list))

/-- A policy-rejection error kind (spec §7: the four gate failures). -/
def isPolicyRejection : DBError → Bool
  | .blacklisted _ => true
  | .overplayed _ => true
  | .exhausted _ => true
  | .tooLong _ => true
  | _ => false

/-- `DBManager.prepend_to_playlist`: identical to append except that the
new chain is seeded with the old head and becomes the new head. -/
def prepend_to_playlist (r : Resolver) (cfg : DBConfig) (db : DB) (user_id : Nat)
    (uris : List String) : DB × Except DBError (Nat × Bool × List String) :=
  let count := (db.links.filter fun l => l.user = user_id).length
  if cfg.chain_limit ≤ count then (db, .error .playlistFull)
  else
    match process_uris r cfg db uris (cfg.chain_limit - count) with
    | (db1, .error e) => (db1, .error e)
    | (db1, .ok (song_list, error_list, truncated0)) =>
      let userdb := get_user cfg db1 user_id
      let user := userdb.1
      let db2 := userdb.2
      let to_insert := cfg.chain_limit -
        (db2.links.filter fun l => l.user = user_id).length
      if to_insert = 0 then (db1, .error .playlistFull)
      else
        let created := create_links user_id user.playlist_head db2
          (song_list.take to_insert).reverse
        let db3 := created.1
        let previous_link := created.2
        let db4 := { db3 with users := db3.users.map fun u =>
            if u.discord_id = user_id then { u with playlist_head := previous_link } else u }
        (db4, .ok (min song_list.length to_insert,
                   truncated0 || decide (to_insert < song_list.length),
                   error_list))

/-! ### Concrete fixtures used by witnesses and counterexamples -/

/-- A configuration with permissive policy values. -/
def cfgT : DBConfig :=
  { rotate_by_default := false, ap_hype_threshold := 0, ap_skip_factor := 0,
    length_limit := 1000, chain_limit := 10, op_interval := 100,
    op_credit_cap := 5, op_credit_renew := 3600 }

/-- A plain catalog row with the given id. -/
def songT (i : Nat) : DBSong :=
  { id := i, uuri := "yt:x", title := "t", last_played := 0, duration := 10,
    credit_count := 1 }

/-- An empty store. -/
def dbEmpty : DB :=
  { songs := [], links := [], users := [], credit_last := 0,
    next_song_id := 1, next_link_id := 1 }

/-- Two users with non-empty playlists: user 1 rotates and holds the chain
1 → 2, user 2 holds the single entry 3. -/
def dbC1 : DB :=
  { songs := [songT 10, songT 11, songT 12],
    links := [⟨1, 1, 10, some 2⟩, ⟨2, 1, 11, none⟩, ⟨3, 2, 12, none⟩],
    users := [{ discord_id := 1, playlist_head := some 1, rotate_playlist := true },
              { discord_id := 2, playlist_head := some 3, rotate_playlist := false }],
    credit_last := 0, next_song_id := 13, next_link_id := 4 }

/-- One user whose single queued song is blacklisted. -/
def dbC2 : DB :=
  { songs := [{ songT 10 with is_blacklisted := true }],
    links := [⟨1, 1, 10, none⟩],
    users := [{ discord_id := 1, playlist_head := some 1, rotate_playlist := false }],
    credit_last := 0, next_song_id := 11, next_link_id := 2 }

/-- One user whose single queued song is both blacklisted and freshly
played (`last_played = 950`, checked at `now = 1000` with a 100s
interval). -/
def dbC5 : DB :=
  { songs := [{ songT 10 with is_blacklisted := true, last_played := 950 }],
    links := [⟨1, 1, 10, none⟩],
    users := [{ discord_id := 1, playlist_head := some 1, rotate_playlist := false }],
    credit_last := 0, next_song_id := 11, next_link_id := 2 }

/-- Resolver for which every URL is a resolvable single track. -/
def rC6 : Resolver :=
  { make_uuri := fun u => some ("yt:" ++ u), is_list := fun _ => false,
    list_entries := fun _ => none,
    track_info := fun u => some ⟨some ("title " ++ u), some 60⟩ }

/-- The capacity-3 configuration of the spec's capacity example. -/
def cfgC6 : DBConfig := { cfgT with chain_limit := 3 }

/-- `n` catalog rows titled "a" (all matching a search for "a"). -/
def songsRange (n : Nat) : List DBSong :=
  (List.range n).map fun i =>
    { id := i, uuri := "yt:x", title := "a", last_played := 0, duration := 1,
      credit_count := 1 }

/-! ### Theorems -/

/-- Claim C3: one credit-renewal cycle computes `n = elapsed // renewalPeriod`
and, when `n > 0`, advances the checkpoint to exactly `T0 + n * period`
(which stays at most, and — when the period does not divide the elapsed
time — strictly before, the current time) and turns every song's credit
into `min (credit + n) cap`. -/
theorem c3_credit_renewal (cfg : DBConfig) (now last : Int) (songs : List DBSong)
    (n : Int) (hn : n = (now - last).fdiv cfg.op_credit_renew) (hpos : 0 < n) :
    (credit_renew_cycle cfg now last songs).1 = last + n * cfg.op_credit_renew ∧
    (∀ i : Nat, ((credit_renew_cycle cfg now last songs).2[i]?).map (fun s => s.credit_count)
      = (songs[i]?).map fun s => min (s.credit_count + n) cfg.op_credit_cap) ∧
    (0 < cfg.op_credit_renew → (credit_renew_cycle cfg now last songs).1 ≤ now) ∧
    (0 < cfg.op_credit_renew → ¬ cfg.op_credit_renew ∣ (now - last) →
      (credit_renew_cycle cfg now last songs).1 ≠ now) := by
  have hcr : credit_renew_cycle cfg now last songs =
      (last + n * cfg.op_credit_renew,
       songs.map fun s =>
         { s with credit_count := min (s.credit_count + n) cfg.op_credit_cap }) := by
    unfold credit_renew_cycle
    rw [← hn, if_pos hpos]
  rw [hcr]
  refine ⟨rfl, ?_, ?_, ?_⟩
  · intro i
    simp only [List.getElem?_map]
    cases songs[i]? <;> rfl
  · intro hper
    have hle : n * cfg.op_credit_renew ≤ now - last := by
      rw [hn, Int.fdiv_eq_ediv _ (le_of_lt hper)]
      exact Int.ediv_mul_le _ (ne_of_gt hper)
    simp only []
    omega
  · intro hper hndvd heq
    apply hndvd
    refine ⟨n, ?_⟩
    rw [Int.mul_comm]
    simp only [] at heq
    omega

/-- Witness for C3: the spec's example — cap 5, period 1h, 3.5h elapsed —
advances the checkpoint to exactly `T0 + 3h`. -/
theorem c3_credit_renewal_witness :
    (credit_renew_cycle cfgT 12600 0 [songT 10] ).1 = 0 + 3 * 3600 :=
  (c3_credit_renewal cfgT 12600 0 [songT 10] 3 (by decide) (by decide)).1

/-- One vote command preserves "the requesting user is in neither vote
set" (and the requesting-user tag itself). -/
theorem applyVote_requester_invariant (R : Nat) (ctx : SongContext) (op : VoteOp)
    (hu : ctx.user = some R) (hh : R ∉ ctx.hypes) (hs : R ∉ ctx.skips) :
    (applyVote ctx op).user = some R ∧
    R ∉ (applyVote ctx op).hypes ∧ R ∉ (applyVote ctx op).skips := by
  cases op with
  | hype u =>
    by_cases hc : some u ≠ ctx.user
    · simp only [applyVote, SongContext.hype, if_pos hc]
      refine ⟨hu, ?_, fun hmem => hs (Finset.mem_of_mem_erase hmem)⟩
      intro hmem
      rcases Finset.mem_insert.mp hmem with h1 | h2
      · exact hc (by rw [hu, h1])
      · exact hh h2
    · simp only [applyVote, SongContext.hype, if_neg hc]
      exact ⟨hu, hh, hs⟩
  | skip u =>
    by_cases hc : some u = ctx.user
    · simp only [applyVote, SongContext.skip, if_pos hc]
      exact ⟨hu, hh, hs⟩
    · simp only [applyVote, SongContext.skip, if_neg hc]
      refine ⟨hu, fun hmem => hh (Finset.mem_of_mem_erase hmem), ?_⟩
      intro hmem
      rcases Finset.mem_insert.mp hmem with h1 | h2
      · exact hc (by rw [hu, h1])
      · exact hs h2

/-- Every vote sequence keeps the requesting user out of both vote sets,
provided it started out of them (as at creation, where both are empty). -/
theorem requester_stays_out (R : Nat) (ops : List VoteOp) :
    ∀ ctx : SongContext, ctx.user = some R → R ∉ ctx.hypes → R ∉ ctx.skips →
    (ops.foldl applyVote ctx).user = some R ∧
    R ∉ (ops.foldl applyVote ctx).hypes ∧ R ∉ (ops.foldl applyVote ctx).skips := by
  induction ops with
  | nil => intro ctx hu hh hs; exact ⟨hu, hh, hs⟩
  | cons op rest ih =>
    intro ctx hu hh hs
    rw [List.foldl_cons]
    obtain ⟨h1, h2, h3⟩ := applyVote_requester_invariant R ctx op hu hh hs
    exact ih _ h1 h2 h3

/-- Claim C10: on the requesting user `R`, `hype` is a silent no-op while
`skip` raises and is state-preserving, so `R` never enters either vote set
over any sequence of vote commands starting from a fresh context. -/
theorem c10_requester_votes (ctx : SongContext) (R : Nat) (hu : ctx.user = some R) :
    ctx.hype R = ctx ∧
    ctx.skip R = .error "Self skip should be handled by the player" ∧
    applyVote ctx (VoteOp.skip R) = ctx ∧
    (R ∉ ctx.hypes → R ∉ ctx.skips → ∀ ops : List VoteOp,
      R ∉ (ops.foldl applyVote ctx).hypes ∧ R ∉ (ops.foldl applyVote ctx).skips) := by
  have hself : ¬ (some R ≠ ctx.user) := by rw [hu]; simp
  refine ⟨?_, ?_, ?_, ?_⟩
  · unfold SongContext.hype
    rw [if_neg hself]
  · unfold SongContext.skip
    rw [if_pos hu.symm]
  · simp only [applyVote, SongContext.skip, if_pos hu.symm]
  · intro hh hs ops
    exact (requester_stays_out R ops ctx hu hh hs).2

/-- Witness for C10 at a concrete freshly created context. -/
theorem c10_requester_votes_witness :
    (SongContext.mk (some 5) 1 "t" 10 "u" ∅ ∅).hype 5 = SongContext.mk (some 5) 1 "t" 10 "u" ∅ ∅ :=
  (c10_requester_votes (SongContext.mk (some 5) 1 "t" 10 "u" ∅ ∅) 5 rfl).1

/-- Claim C5: the policy gates of `get_next_song` run in the fixed order
blacklist → overplay interval → credit exhaustion → duration, and the first
failing gate names the error; in particular a song that is both blacklisted
and freshly played fails `Blacklisted` (shown generally on the gate, and on
a full `get_next_song` call on such a song). -/
theorem c5_gate_order (cfg : DBConfig) (now : Int) (s : DBSong) :
    (s.is_blacklisted = true → check_constraints cfg now s = some (.blacklisted s.id)) ∧
    (s.is_blacklisted = false → now - s.last_played < cfg.op_interval →
      check_constraints cfg now s = some (.overplayed s.id)) ∧
    (s.is_blacklisted = false → ¬ now - s.last_played < cfg.op_interval →
      s.credit_count = 0 → check_constraints cfg now s = some (.exhausted s.id)) ∧
    (s.is_blacklisted = false → ¬ now - s.last_played < cfg.op_interval →
      s.credit_count ≠ 0 → cfg.length_limit < s.duration →
      check_constraints cfg now s = some (.tooLong s.id)) ∧
    (get_next_song cfgT (fun _ => none) 1000 dbC5 1).2 = .error (.blacklisted 10) := by
  refine ⟨?_, ?_, ?_, ?_, by rfl⟩
  · intro h1
    unfold check_constraints
    rw [if_pos h1]
  · intro h1 h2
    unfold check_constraints
    rw [if_neg (by rw [h1]; exact Bool.false_ne_true), if_pos h2]
  · intro h1 h2 h3
    unfold check_constraints
    rw [if_neg (by rw [h1]; exact Bool.false_ne_true), if_neg h2, if_pos h3]
  · intro h1 h2 h3 h4
    unfold check_constraints
    rw [if_neg (by rw [h1]; exact Bool.false_ne_true), if_neg h2, if_neg h3, if_pos h4]

/-- Witness for C5: a blacklisted song fails the gate as `Blacklisted`. -/
theorem c5_gate_order_witness :
    check_constraints cfgT 1000 { songT 10 with is_blacklisted := true, last_played := 950 }
      = some (.blacklisted 10) :=
  (c5_gate_order cfgT 1000 { songT 10 with is_blacklisted := true, last_played := 950 }).1 rfl

/-- Claim C7: autoplay selects only among songs satisfying all eight
eligibility clauses, and returns `ok none` (not an error) when no song
does. -/
theorem c7_autoplay_eligibility (cfg : DBConfig) (resolve : String → Option String)
    (pick : Nat) (now : Int) (db : DB) :
    ((∀ s ∈ db.songs, ap_eligible cfg now s = false) →
      (get_autoplaylist_song cfg resolve pick now db).2 = .ok none) ∧
    (∀ ctx : SongContext,
      (get_autoplaylist_song cfg resolve pick now db).2 = .ok (some ctx) →
      ∃ s ∈ db.songs, s.id = ctx.song ∧
        s.last_played < now - cfg.op_interval ∧
        cfg.ap_hype_threshold ≤ s.hype_count ∧
        s.skip_votes * cfg.ap_skip_factor ≤ s.hype_count ∧
        s.duration ≤ cfg.length_limit ∧
        0 < s.credit_count ∧
        s.is_blacklisted = false ∧
        s.has_failed = false ∧
        s.duplicate = none) := by
  constructor
  · intro hall
    have hnil : db.songs.filter (ap_eligible cfg now) = [] := by
      rw [List.filter_eq_nil_iff]
      intro a ha
      rw [hall a ha]
      exact Bool.false_ne_true
    simp [get_autoplaylist_song, hnil]
  · intro ctx hok
    simp only [get_autoplaylist_song] at hok
    cases hsel : (db.songs.filter (ap_eligible cfg now))[pick %
        (db.songs.filter (ap_eligible cfg now)).length]? with
    | none =>
      rw [hsel] at hok
      exact absurd hok (by simp)
    | some song =>
      rw [hsel] at hok
      dsimp only at hok
      have hmem : song ∈ db.songs.filter (ap_eligible cfg now) := List.getElem?_mem hsel
      have hmem2 := List.mem_filter.mp hmem
      have helig := hmem2.2
      simp only [ap_eligible, Bool.and_eq_true, decide_eq_true_eq, Bool.not_eq_true',
        decide_eq_true_eq] at helig
      cases hres : resolve song.uuri with
      | none =>
        rw [hres] at hok
        exact absurd hok (by simp)
      | some url =>
        rw [hres] at hok
        have hctx : (Except.ok (some (SongContext.mk none song.id song.title song.duration
            url ∅ ∅)) : Except DBError (Option SongContext)) = .ok (some ctx) := hok
        have hctx2 := (Option.some.injEq _ _).mp ((Except.ok.injEq _ _).mp hctx)
        refine ⟨song, hmem2.1, ?_, helig.1.1.1.1.1.1.1, helig.1.1.1.1.1.1.2,
          helig.1.1.1.1.1.2, helig.1.1.1.1.2, helig.1.1.1.2, helig.1.1.2, helig.1.2,
          helig.2⟩
        rw [← hctx2]

/-- Witness for C7: an empty catalog yields `ok none`. -/
theorem c7_autoplay_eligibility_witness :
    (get_autoplaylist_song cfgT (fun _ => none) 0 1000 dbEmpty).2 = .ok none :=
  (c7_autoplay_eligibility cfgT (fun _ => none) 0 1000 dbEmpty).1 (by simp [dbEmpty])

/-- Chaining one `where` clause per keyword filters by their
conjunction. -/
theorem foldl_filter_eq_filter_all (kws : List String) (l : List DBSong) :
    kws.foldl (fun q kw => q.filter fun s => likeMatch s.title kw || likeMatch s.uuri kw) l
      = l.filter (matchesAllKeywords kws) := by
  induction kws generalizing l with
  | nil =>
    rw [List.foldl_nil]
    exact (List.filter_eq_self.mpr fun a _ => rfl).symm
  | cons kw rest ih =>
    rw [List.foldl_cons, ih, List.filter_filter]
    apply List.filter_congr
    intro a _
    simp [matchesAllKeywords, Bool.and_comm]

/-- Claim C8 (amended): `search_songs` returns the `(id, title)` pairs of the
songs whose title or locator contains every keyword, in table order,
capped at the hard-coded limit of 20 — and nothing else: in particular no
total match count. -/
theorem c8_search_amended (songs : List DBSong) (keywords : List String) :
    search_songs songs keywords
      = ((songs.filter (matchesAllKeywords keywords)).take 20).map fun s => (s.id, s.title) := by
  unfold search_songs
  rw [foldl_filter_eq_filter_all]

/-- Counterexample for C8 as stated: two catalogs with different total
match counts (21 and 22 songs all matching the keyword) produce identical
search results, so the result of `search_songs` does not carry the total
number of matching songs. -/
theorem c8_search_counterexample :
    search_songs (songsRange 21) ["a"] = search_songs (songsRange 22) ["a"] ∧
    searchTotalMatches (songsRange 21) ["a"] ≠ searchTotalMatches (songsRange 22) ["a"] := by
  exact ⟨by decide, by decide⟩

/-- Clearing `duplicate` on rows that already have it clear changes
nothing. -/
theorem clear_duplicate_eq_self (s : DBSong) (h : s.duplicate = none) :
    { s with duplicate := none } = s := by
  cases s
  simp_all

/-- Claim C9: `merge(x, x)` (split) on an existing song succeeds and clears
`duplicate_of`, a second immediate call succeeds again leaving the state
untouched, and the call fails `NotFound` exactly when song `x` is
absent. -/
theorem c9_split_idempotent (db : DB) (x : Nat) :
    ((db.songs.filter fun s => s.id = x).length = 1 →
      (merge_songs db x x).2 = .ok () ∧
      (∀ s ∈ (merge_songs db x x).1.songs, s.id = x → s.duplicate = none) ∧
      (merge_songs (merge_songs db x x).1 x x).2 = .ok () ∧
      (merge_songs (merge_songs db x x).1 x x).1 = (merge_songs db x x).1) ∧
    ((∀ s ∈ db.songs, s.id ≠ x) → merge_songs db x x = (db, .error (.notFound x))) := by
  have hsplit : ∀ d : DB, merge_songs d x x =
      (let matched := (d.songs.filter fun s => s.id = x).length
       let d1 := { d with songs := d.songs.map fun s =>
         if s.id = x then { s with duplicate := none } else s }
       if matched = 1 then (d1, .ok ()) else (d1, .error (.notFound x))) := by
    intro d
    unfold merge_songs
    rw [if_pos rfl]
  constructor
  · intro h1
    have e1 : merge_songs db x x =
        ({ db with songs := db.songs.map fun s =>
            if s.id = x then { s with duplicate := none } else s }, .ok ()) := by
      rw [hsplit db]
      simp only [h1, if_pos]
    have hdupnone : ∀ s ∈ (merge_songs db x x).1.songs, s.id = x → s.duplicate = none := by
      rw [e1]
      intro s hs hid
      obtain ⟨t, ht, rfl⟩ := List.mem_map.mp hs
      by_cases hc : t.id = x
      · simp only [if_pos hc]
      · rw [if_neg hc] at hid ⊢
        exact absurd hid hc
    refine ⟨by rw [e1], hdupnone, ?_, ?_⟩
    · rw [hsplit (merge_songs db x x).1]
      have hlen : ((merge_songs db x x).1.songs.filter fun s => s.id = x).length = 1 := by
        rw [e1]
        simp only [List.filter_map]
        rw [List.length_map]
        rw [List.filter_congr (fun a _ => ?_), ← h1]
        by_cases hc : a.id = x <;> simp [Function.comp, hc]
      simp only [hlen, if_pos]
    · rw [hsplit (merge_songs db x x).1]
      have hmapid : (merge_songs db x x).1.songs.map
          (fun s => if s.id = x then { s with duplicate := none } else s)
          = (merge_songs db x x).1.songs := by
        rw [List.map_congr_left (g := id) fun a ha => ?_, List.map_id]
        by_cases hc : a.id = x
        · rw [if_pos hc, clear_duplicate_eq_self a (hdupnone a ha hc)]
          rfl
        · rw [if_neg hc]
          rfl
      have hlen : ((merge_songs db x x).1.songs.filter fun s => s.id = x).length = 1 := by
        rw [e1]
        simp only [List.filter_map]
        rw [List.length_map]
        rw [List.filter_congr (fun a _ => ?_), ← h1]
        by_cases hc : a.id = x <;> simp [Function.comp, hc]
      simp only [hlen, if_pos, hmapid]
  · intro h2
    rw [hsplit db]
    have hlen : ((db.songs.filter fun s => s.id = x).length = 1) = False := by
      simp only [eq_iff_iff, iff_false]
      rw [List.filter_eq_nil_iff.mpr fun a ha => by simp [h2 a ha]]
      simp
    have hmapid : (db.songs.map fun s => if s.id = x then { s with duplicate := none } else s)
        = db.songs := by
      rw [List.map_congr_left (g := id) fun a ha => ?_, List.map_id]
      rw [if_neg (h2 a ha)]
      rfl
    simp only [hlen, if_false, hmapid]

/-- Witness for C9: splitting a one-song catalog twice. -/
theorem c9_split_idempotent_witness :
    (merge_songs { dbEmpty with songs := [{ songT 7 with duplicate := some 9 }] } 7 7).2
      = .ok () :=
  ((c9_split_idempotent { dbEmpty with songs := [{ songT 7 with duplicate := some 9 }] } 7).1
    (by decide)).1

/-- Claim C1: refuted on the code — the rotate splice of `get_next_song`
updates `next = link.id` on every link whose `next` is NULL with **no user
condition** (dbmanager.py line 230), so consuming user 1's head splices the
consumed entry onto user 2's tail as well: afterwards entry 1 (owned by
user 1) is reachable from both users' heads, violating the
exactly-one-user reachability invariant the claim states. -/
theorem c1_rotate_splices_all_tails :
    ((((get_next_song cfgT (fun _ => none) 1000 dbC1 1).1.users.find?
        fun u => u.discord_id = 1).bind fun u => u.playlist_head) = some 2) ∧
    ((((get_next_song cfgT (fun _ => none) 1000 dbC1 1).1.users.find?
        fun u => u.discord_id = 2).bind fun u => u.playlist_head) = some 3) ∧
    chainIds (get_next_song cfgT (fun _ => none) 1000 dbC1 1).1.links 10 (some 2) = [2, 1] ∧
    chainIds (get_next_song cfgT (fun _ => none) 1000 dbC1 1).1.links 10 (some 3) = [3, 1] ∧
    ((get_next_song cfgT (fun _ => none) 1000 dbC1 1).1.links.find?
        fun l => l.id = 1).map (fun l => l.user) = some 1 := by
  refine ⟨by rfl, by rfl, by rfl, by rfl, by rfl⟩

/-- Counterexample for C2 as stated: a `Blacklisted` rejection after which
the user's playlist is **not** as it was — the dequeued entry is gone,
because the pointer update commits before the policy gate runs. -/
theorem c2_policy_rejection_counterexample :
    (get_next_song cfgT (fun _ => none) 1000 dbC2 1).2 = .error (.blacklisted 10) ∧
    (get_next_song cfgT (fun _ => none) 1000 dbC2 1).1.links = [] ∧
    dbC2.links ≠ [] := by
  refine ⟨by rfl, by rfl, by decide⟩

/-- `_get_user` never touches the songs table. -/
theorem get_user_songs (cfg : DBConfig) (db : DB) (uid : Nat) :
    ((get_user cfg db uid).2).songs = db.songs := by
  unfold get_user
  split <;> rfl

/-- `_get_user` never touches the links table. -/
theorem get_user_links (cfg : DBConfig) (db : DB) (uid : Nat) :
    ((get_user cfg db uid).2).links = db.links := by
  unfold get_user
  split <;> rfl

/-- The playlist-pointer update never touches the songs table. -/
theorem advance_playlist_songs (db : DB) (user : DBUser) (link : DBSongLink) :
    (advance_playlist db user link).songs = db.songs := by
  unfold advance_playlist
  split
  · rfl
  split <;> rfl

/-- Claim C2 (amended): when `get_next_song` fails with a policy rejection
(`Blacklisted`/`Overplayed`/`Exhausted`/`TooLong`), no song record is
mutated — but the playlist advance of the dequeue step has already
committed (the counterexample shows the consumed entry is gone). -/
theorem c2_policy_rejection_keeps_songs (cfg : DBConfig) (resolve : String → Option String)
    (now : Int) (db : DB) (uid : Nat) (e : DBError)
    (herr : (get_next_song cfg resolve now db uid).2 = .error e)
    (hpol : isPolicyRejection e = true) :
    (get_next_song cfg resolve now db uid).1.songs = db.songs := by
  simp only [get_next_song] at herr ⊢
  cases hh : (get_user cfg db uid).1.playlist_head with
  | none => simp only [hh]
  | some head_id =>
    simp only [hh] at herr ⊢
    cases hl : (get_user cfg db uid).2.links.find? fun l => l.id = head_id with
    | none => simp only [hl]
    | some link =>
      simp only [hl] at herr ⊢
      cases hs : (get_user cfg db uid).2.songs.find? fun s => s.id = link.song with
      | none => simp only [hs]
      | some song0 =>
        simp only [hs] at herr ⊢
        cases hdup : song0.duplicate with
        | none =>
          simp only [hdup] at herr ⊢
          cases hcc : check_constraints cfg now song0 with
          | some e2 =>
            simp only [hcc] at herr ⊢
            rw [advance_playlist_songs, get_user_songs]
          | none =>
            simp only [hcc] at herr
            cases hres : resolve song0.uuri with
            | none =>
              simp only [hres] at herr
              have he : DBError.unavailable song0.id song0.title = e :=
                (Except.error.injEq _ _).mp herr
              rw [← he] at hpol
              exact absurd hpol (by simp [isPolicyRejection])
            | some url =>
              simp only [hres] at herr
              exact absurd herr (by simp)
        | some dup_id =>
          simp only [hdup] at herr ⊢
          cases hfd : (advance_playlist (get_user cfg db uid).2 (get_user cfg db uid).1
              link).songs.find? fun s => s.id = dup_id with
          | none => simp only [hfd]
          | some song =>
            simp only [hfd] at herr ⊢
            cases hcc : check_constraints cfg now song with
            | some e2 =>
              simp only [hcc] at herr ⊢
              rw [advance_playlist_songs, get_user_songs]
            | none =>
              simp only [hcc] at herr
              cases hres : resolve song.uuri with
              | none =>
                simp only [hres] at herr
                have he : DBError.unavailable song.id song.title = e :=
                  (Except.error.injEq _ _).mp herr
                rw [← he] at hpol
                exact absurd hpol (by simp [isPolicyRejection])
              | some url =>
                simp only [hres] at herr
                exact absurd herr (by simp)

/-- Witness for C2 (amended) at the counterexample state. -/
theorem c2_policy_rejection_keeps_songs_witness :
    (get_next_song cfgT (fun _ => none) 1000 dbC2 1).1.songs = dbC2.songs :=
  c2_policy_rejection_keeps_songs cfgT (fun _ => none) 1000 dbC2 1
    (.blacklisted 10) (by rfl) (by rfl)

/-- `_get_song` only ever touches the songs table. -/
theorem get_song_links (r : Resolver) (cfg : DBConfig) (db : DB) (url : String) :
    (get_song r cfg db url).1.links = db.links := by
  unfold get_song
  repeat' split
  all_goals rfl

/-- The playlist-entry loop of `_process_uris` never touches the links
table (songs are resolved before the insertion transaction). -/
theorem process_list_entries_links (r : Resolver) (cfg : DBConfig) (limit : Nat) :
    ∀ (es : List String) (db : DB) (ss : List DBSong) (errs : List String),
    (process_list_entries r cfg db limit es ss errs).1.links = db.links := by
  intro es
  induction es with
  | nil => intro db ss errs; rfl
  | cons url rest ih =>
    intro db ss errs
    unfold process_list_entries
    split
    · rfl
    · cases hg : get_song r cfg db url with
      | mk db1 res =>
        have hlinks : db1.links = db.links := by
          have h0 := get_song_links r cfg db url
          rw [hg] at h0
          exact h0
        cases res with
        | ok s =>
          show (process_list_entries r cfg db1 limit rest (ss ++ [s]) errs).1.links = db.links
          rw [ih]; exact hlinks
        | error e =>
          cases e
          case malformed msg =>
            show (process_list_entries r cfg db1 limit rest ss (errs ++ [msg])).1.links
              = db.links
            rw [ih]; exact hlinks
          case download u =>
            show (process_list_entries r cfg db1 limit rest ss
                (errs ++ ["Inserting " ++ u ++ " from playlist failed"])).1.links = db.links
            rw [ih]; exact hlinks
          all_goals exact hlinks

/-- `_process_uris` never touches the links table. -/
theorem process_uris_go_links (r : Resolver) (cfg : DBConfig) (limit : Nat) :
    ∀ (uris : List String) (db : DB) (ss : List DBSong) (errs : List String),
    (process_uris_go r cfg db limit uris ss errs).1.links = db.links := by
  intro uris
  induction uris with
  | nil => intro db ss errs; rfl
  | cons uri rest ih =>
    intro db ss errs
    unfold process_uris_go
    split
    · rfl
    split
    · split
      · rw [ih]
      · rw [ih]
    split
    · split
      · rw [ih]
      · rw [ih]
      · rename_i entries heq
        cases hp : process_list_entries r cfg db limit entries ss errs with
        | mk db1 res =>
          have hlinks : db1.links = db.links := by
            have h0 := process_list_entries_links r cfg limit entries db ss errs
            rw [hp] at h0
            exact h0
          cases res with
          | error e => exact hlinks
          | ok val =>
            obtain ⟨songs1, errors1, early⟩ := val
            cases early with
            | true => exact hlinks
            | false =>
              show (process_uris_go r cfg db1 limit rest songs1 errors1).1.links = db.links
              rw [ih]; exact hlinks
    · cases hg : get_song r cfg db uri with
      | mk db1 res =>
        have hlinks : db1.links = db.links := by
          have h0 := get_song_links r cfg db uri
          rw [hg] at h0
          exact h0
        cases res with
        | ok s =>
          show (process_uris_go r cfg db1 limit rest (ss ++ [s]) errs).1.links = db.links
          rw [ih]; exact hlinks
        | error e =>
          cases e
          case malformed msg =>
            show (process_uris_go r cfg db1 limit rest ss (errs ++ [msg])).1.links = db.links
            rw [ih]; exact hlinks
          case download u =>
            show (process_uris_go r cfg db1 limit rest ss
                (errs ++ ["Inserting " ++ u ++ " failed"])).1.links = db.links
            rw [ih]; exact hlinks
          all_goals exact hlinks

/-- `_process_uris` never touches the links table (entry point). -/
theorem process_uris_links (r : Resolver) (cfg : DBConfig) (db : DB)
    (uris : List String) (limit : Nat) :
    (process_uris r cfg db uris limit).1.links = db.links :=
  process_uris_go_links r cfg limit uris db [] []

/-- A successful append inserts at most the remaining capacity recomputed
inside the transaction (which equals the capacity left in the caller's
store, since resolution touches no links). -/
theorem append_ok_inserted (r : Resolver) (cfg : DBConfig) (db : DB) (uid : Nat)
    (uris : List String) (ins : Nat) (tr : Bool) (errs : List String)
    (h : (append_to_playlist r cfg db uid uris).2 = .ok (ins, tr, errs)) :
    ins + (db.links.filter fun l => l.user = uid).length ≤ cfg.chain_limit := by
  unfold append_to_playlist at h
  by_cases h0 : cfg.chain_limit ≤ (db.links.filter fun l => l.user = uid).length
  · rw [if_pos h0] at h
    exact absurd h (by simp)
  · rw [if_neg h0] at h
    cases hp : process_uris r cfg db uris
        (cfg.chain_limit - (db.links.filter fun l => l.user = uid).length) with
    | mk db1 res =>
      have hl1 : db1.links = db.links := by
        have h1 := process_uris_links r cfg db uris
          (cfg.chain_limit - (db.links.filter fun l => l.user = uid).length)
        rw [hp] at h1
        exact h1
      rw [hp] at h
      cases res with
      | error e => exact absurd h (by simp)
      | ok val =>
        obtain ⟨song_list, error_list, truncated0⟩ := val
        dsimp only at h
        have hcur : ((get_user cfg db1 uid).2.links.filter fun l => l.user = uid).length
            = (db.links.filter fun l => l.user = uid).length := by
          rw [get_user_links, hl1]
        rw [hcur] at h
        by_cases hti : cfg.chain_limit - (db.links.filter fun l => l.user = uid).length = 0
        · rw [if_pos hti] at h
          exact absurd h (by simp)
        · rw [if_neg hti] at h
          have hins : min song_list.length
              (cfg.chain_limit - (db.links.filter fun l => l.user = uid).length) = ins := by
            have := (Except.ok.injEq _ _).mp h
            exact congrArg (fun t => t.1) this
          have hmin : ins ≤ cfg.chain_limit - (db.links.filter fun l => l.user = uid).length := by
            rw [← hins]
            exact Nat.min_le_right _ _
          omega

/-- Same capacity bound for prepend. -/
theorem prepend_ok_inserted (r : Resolver) (cfg : DBConfig) (db : DB) (uid : Nat)
    (uris : List String) (ins : Nat) (tr : Bool) (errs : List String)
    (h : (prepend_to_playlist r cfg db uid uris).2 = .ok (ins, tr, errs)) :
    ins + (db.links.filter fun l => l.user = uid).length ≤ cfg.chain_limit := by
  unfold prepend_to_playlist at h
  by_cases h0 : cfg.chain_limit ≤ (db.links.filter fun l => l.user = uid).length
  · rw [if_pos h0] at h
    exact absurd h (by simp)
  · rw [if_neg h0] at h
    cases hp : process_uris r cfg db uris
        (cfg.chain_limit - (db.links.filter fun l => l.user = uid).length) with
    | mk db1 res =>
      have hl1 : db1.links = db.links := by
        have h1 := process_uris_links r cfg db uris
          (cfg.chain_limit - (db.links.filter fun l => l.user = uid).length)
        rw [hp] at h1
        exact h1
      rw [hp] at h
      cases res with
      | error e => exact absurd h (by simp)
      | ok val =>
        obtain ⟨song_list, error_list, truncated0⟩ := val
        dsimp only at h
        have hcur : ((get_user cfg db1 uid).2.links.filter fun l => l.user = uid).length
            = (db.links.filter fun l => l.user = uid).length := by
          rw [get_user_links, hl1]
        rw [hcur] at h
        by_cases hti : cfg.chain_limit - (db.links.filter fun l => l.user = uid).length = 0
        · rw [if_pos hti] at h
          exact absurd h (by simp)
        · rw [if_neg hti] at h
          have hins : min song_list.length
              (cfg.chain_limit - (db.links.filter fun l => l.user = uid).length) = ins := by
            have := (Except.ok.injEq _ _).mp h
            exact congrArg (fun t => t.1) this
          have hmin : ins ≤ cfg.chain_limit - (db.links.filter fun l => l.user = uid).length := by
            rw [← hins]
            exact Nat.min_le_right _ _
          omega

/-- Claim C6: with `maxSongs = 3`, appending 5 resolvable locators to an
empty playlist inserts exactly 3 entries, reports `truncated = true` with
no per-item errors, the playlist chain holds exactly songs 1, 2, 3 and the
remaining two locators are nowhere (not even resolved into the catalog);
in general append and prepend truncate at the remaining capacity
recomputed inside the transaction. -/
theorem c6_append_truncation :
    (append_to_playlist rC6 cfgC6 dbEmpty 1 ["u1", "u2", "u3", "u4", "u5"]).2
      = .ok (3, true, []) ∧
    playlist_songs (append_to_playlist rC6 cfgC6 dbEmpty 1
      ["u1", "u2", "u3", "u4", "u5"]).1 1 10 = [1, 2, 3] ∧
    ((append_to_playlist rC6 cfgC6 dbEmpty 1
      ["u1", "u2", "u3", "u4", "u5"]).1.songs.map fun s => s.uuri)
      = ["yt:u1", "yt:u2", "yt:u3"] ∧
    ((append_to_playlist rC6 cfgC6 dbEmpty 1
      ["u1", "u2", "u3", "u4", "u5"]).1.links.map fun l => l.song) = [3, 2, 1] ∧
    (∀ (r : Resolver) (cfg : DBConfig) (db : DB) (uid : Nat) (uris : List String)
      (ins : Nat) (tr : Bool) (errs : List String),
      (append_to_playlist r cfg db uid uris).2 = .ok (ins, tr, errs) →
      ins + (db.links.filter fun l => l.user = uid).length ≤ cfg.chain_limit) ∧
    (∀ (r : Resolver) (cfg : DBConfig) (db : DB) (uid : Nat) (uris : List String)
      (ins : Nat) (tr : Bool) (errs : List String),
      (prepend_to_playlist r cfg db uid uris).2 = .ok (ins, tr, errs) →
      ins + (db.links.filter fun l => l.user = uid).length ≤ cfg.chain_limit) :=
  ⟨by rfl, by rfl, by rfl, by rfl, append_ok_inserted, prepend_ok_inserted⟩

/-- Witness for C6's general clause at the concrete capacity-3 run. -/
theorem c6_append_truncation_witness :
    3 + ((dbEmpty.links.filter fun l => l.user = 1).length) ≤ cfgC6.chain_limit :=
  c6_append_truncation.2.2.2.2.1 rC6 cfgC6 dbEmpty 1 ["u1", "u2", "u3", "u4", "u5"]
    3 true [] (by rfl)

/-- A row update that does not change ids preserves the id column. -/
theorem map_update_ids (songs : List DBSong) (f : DBSong → DBSong)
    (hf : ∀ s, (f s).id = s.id) :
    ((songs.map f).map fun s => s.id) = songs.map fun s => s.id := by
  rw [List.map_map]
  exact List.map_congr_left fun a _ => hf a

/-- Clearing `duplicate` on any set of rows preserves the depth-1
invariant. -/
theorem dupDepthLE1_clear (songs : List DBSong) (p : DBSong → Prop) [DecidablePred p]
    (h : dupDepthLE1 songs) :
    dupDepthLE1 (songs.map fun s => if p s then { s with duplicate := none } else s) := by
  intro s2 hs2 t2 ht2 hdup
  obtain ⟨s, hs, rfl⟩ := List.mem_map.mp hs2
  obtain ⟨t, ht, rfl⟩ := List.mem_map.mp ht2
  by_cases hpt : p t
  · rw [if_pos hpt]
  · rw [if_neg hpt]
    rw [if_neg hpt] at hdup
    by_cases hps : p s
    · rw [if_pos hps] at hdup
      exact absurd hdup (by simp)
    · rw [if_neg hps] at hdup
      exact h s hs t ht hdup

/-- The cascading redirect `UPDATE duplicate=eff WHERE id=a OR
duplicate=a` preserves the depth-1 invariant, provided the effective
target is not the source and every row carrying the effective target's id
has a clear `duplicate`. -/
theorem dupDepthLE1_merge_update (songs : List DBSong) (a eff : Nat)
    (h : dupDepthLE1 songs)
    (heff_ne : eff ≠ a)
    (heff_clear : ∀ t ∈ songs, t.id = eff → t.duplicate = none) :
    dupDepthLE1 (songs.map fun s =>
      if s.id = a || s.duplicate = some a then { s with duplicate := some eff } else s) := by
  intro s2 hs2 t2 ht2 hdup
  obtain ⟨s, hs, rfl⟩ := List.mem_map.mp hs2
  obtain ⟨t, ht, rfl⟩ := List.mem_map.mp ht2
  have hid : (if t.id = a || t.duplicate = some a then { t with duplicate := some eff }
      else t).id = t.id := by
    split <;> rfl
  rw [hid] at hdup
  split at hdup
  · next hcs =>
    have hte : eff = t.id := by
      have : some eff = some t.id := hdup
      exact (Option.some.injEq _ _).mp this
    have htclear : t.duplicate = none := heff_clear t ht hte.symm
    split
    · next hct =>
      exfalso
      simp only [Bool.or_eq_true, decide_eq_true_eq] at hct
      rcases hct with h1 | h2
      · exact heff_ne (by rw [hte, h1])
      · rw [htclear] at h2
        exact absurd h2 (by simp)
    · exact htclear
  · next hcs =>
    have htdup : t.duplicate = none := h s hs t ht hdup
    split
    · next hct =>
      exfalso
      simp only [Bool.or_eq_true, decide_eq_true_eq] at hct
      simp only [Bool.or_eq_true, decide_eq_true_eq] at hcs
      push_neg at hcs
      rcases hct with h1 | h2
      · exact hcs.2 (by rw [← h1]; exact hdup)
      · rw [htdup] at h2
        exact absurd h2 (by simp)
    · exact htdup

/-- One `merge_songs` call (merge or split, successful or failed)
preserves the id column and the depth-1 invariant. -/
theorem merge_songs_preserves (db : DB) (a b : Nat)
    (hnd : (db.songs.map fun s => s.id).Nodup) (h : dupDepthLE1 db.songs) :
    ((merge_songs db a b).1.songs.map fun s => s.id) = (db.songs.map fun s => s.id) ∧
    dupDepthLE1 (merge_songs db a b).1.songs := by
  by_cases hab : a = b
  · unfold merge_songs
    rw [if_pos hab]
    have hids : ((db.songs.map fun s =>
        if s.id = a then { s with duplicate := none } else s).map fun s => s.id)
        = db.songs.map fun s => s.id :=
      map_update_ids _ _ fun s => by split <;> rfl
    have hdep : dupDepthLE1 (db.songs.map fun s =>
        if s.id = a then { s with duplicate := none } else s) :=
      dupDepthLE1_clear db.songs (fun s => s.id = a) h
    dsimp only
    split <;> exact ⟨hids, hdep⟩
  · unfold merge_songs
    rw [if_neg hab]
    cases hf : db.songs.find? (fun s => s.id = b) with
    | none => exact ⟨rfl, h⟩
    | some target =>
      have htmem : target ∈ db.songs := List.mem_of_find?_eq_some hf
      have htid : target.id = b := by
        have h0 := List.find?_some hf
        simpa using h0
      dsimp only
      by_cases hrev : target.duplicate = some a
      · rw [if_pos hrev]
        dsimp only
        split
        · exact ⟨rfl, h⟩
        · next hm =>
          have hdep1 : dupDepthLE1 (db.songs.map fun s =>
              if s.id = b then { s with duplicate := none } else s) :=
            dupDepthLE1_clear db.songs (fun s => s.id = b) h
          constructor
          · rw [map_update_ids _ _ fun s => by split <;> rfl,
              map_update_ids _ _ fun s => by split <;> rfl]
          · apply dupDepthLE1_merge_update _ a b hdep1 (fun e => hab e.symm)
            intro t ht htb
            obtain ⟨t0, ht0, rfl⟩ := List.mem_map.mp ht
            by_cases hc : t0.id = b
            · rw [if_pos hc]
            · rw [if_neg hc] at htb ⊢
              exact absurd htb hc
      · rw [if_neg hrev]
        cases hdt : target.duplicate with
        | some root =>
          dsimp only
          split
          · exact ⟨rfl, h⟩
          · next hm =>
            constructor
            · rw [map_update_ids _ _ fun s => by split <;> rfl]
            · apply dupDepthLE1_merge_update _ a root h
              · intro he
                rw [he] at hdt
                exact hrev hdt
              · intro t ht htr
                exact h target htmem t ht (by rw [hdt, htr])
        | none =>
          dsimp only
          split
          · exact ⟨rfl, h⟩
          · next hm =>
            constructor
            · rw [map_update_ids _ _ fun s => by split <;> rfl]
            · apply dupDepthLE1_merge_update _ a b h (fun e => hab e.symm)
              intro t ht htb
              have hteq : t = target :=
                List.inj_on_of_nodup_map hnd ht htmem (by rw [htb, htid])
              rw [hteq, hdt]

/-- Claim C4: from any catalog whose `duplicate_of` chains have depth at
most 1 (ids being unique, as for a primary key), every sequence of
`merge`/`split` calls leaves all chains of depth at most 1 — merge
redirects to the target's root when the target is itself a duplicate and
cascades the new target onto every song pointing at the source. -/
theorem c4_merge_depth1 (db : DB) (ops : List (Nat × Nat))
    (hnd : (db.songs.map fun s => s.id).Nodup) (h : dupDepthLE1 db.songs) :
    dupDepthLE1 (applyMergeOps db ops).songs := by
  induction ops generalizing db with
  | nil => exact h
  | cons op rest ih =>
    have step := merge_songs_preserves db op.1 op.2 hnd h
    have hnd2 : ((merge_songs db op.1 op.2).1.songs.map fun s => s.id).Nodup := by
      rw [step.1]
      exact hnd
    exact ih (merge_songs db op.1 op.2).1 hnd2 step.2

/-- Witness for C4: a three-song catalog with one depth-1 link, run
through a merge, a redirected merge and a split. -/
theorem c4_merge_depth1_witness :
    dupDepthLE1 (applyMergeOps
      { dbEmpty with songs := [songT 1, songT 2, { songT 3 with duplicate := some 1 }] }
      [(2, 3), (1, 2), (3, 3)]).songs :=
  c4_merge_depth1
    { dbEmpty with songs := [songT 1, songT 2, { songT 3 with duplicate := some 1 }] }
    [(2, 3), (1, 2), (3, 3)] (by decide) (by decide)
